import Mathlib

/-!
Verification of the piscine-tracker backend (src/server.py and
src/scripts/fetch_data.py) against its natural-language specification.

Modelling conventions (shallow embedding):
* Real-valued quantities (hours, timestamps) are rationals `ℚ`.
* Wall-clock instants are measured in hours since PISCINE_START (JST);
  calendar dates are integers counting days since PISCINE_START
  (so the piscine window is the date interval `[0, 26)`).  The Python
  code compares dates as strings in the fixed format YYYY-MM-DD, whose
  lexicographic order agrees with this integer order.
* A duration string HH:MM:SS[.ffffff] is modelled as
  `Option (ℕ × ℕ × ℚ)`: `some (h, m, s)` when the string splits at ":"
  into exactly three numeric parts, `none` for the empty or malformed
  strings (the code returns 0.0 for those).
* A JSON dict is modelled as an association list of key/value pairs.
* Python's `round(x, n)` (round half to even on the scaled value) is
  modelled exactly by `pyRound` below.
-/

namespace PiscineTracker

/-- Python's banker rounding of a rational to the nearest integer,
ties going to the even integer (the behaviour of `round` on exact
values). -/
def pyRound (q : ℚ) : ℤ :=
  if q - (⌊q⌋ : ℚ) < 1/2 then ⌊q⌋
  else if 1/2 < q - (⌊q⌋ : ℚ) then ⌊q⌋ + 1
  else if ⌊q⌋ % 2 = 0 then ⌊q⌋ else ⌊q⌋ + 1

/-- Python's `round(x, 1)`. -/
def round1 (q : ℚ) : ℚ := (pyRound (q * 10) : ℚ) / 10

/-- Python's `round(x, 2)`. -/
def round2 (q : ℚ) : ℚ := (pyRound (q * 100) : ℚ) / 100

/-- A duration string, abstracted: `some (h, m, s)` when the string is
three colon-separated numeric fields HH:MM:SS[.ffffff], `none` when the
string is empty or does not split into exactly three parts. -/
abbrev Dur : Type := Option (ℕ × ℕ × ℚ)

/-- parse_duration from src/server.py lines 308-318 (identical in
src/scripts/fetch_data.py lines 99-105): empty or malformed strings give
0.0, otherwise hours + minutes/60 + seconds/3600. -/
def parse_duration (d : Dur) : ℚ :=
  match d with
  | none => 0
  | some (h, m, s) => (h : ℚ) + (m : ℚ) / 60 + s / 3600

/-! ### TTL cache (src/server.py) -/

/-- One slot of the module-level `_cache` dict of src/server.py
(lines 33-37): optional cached payload and an expiry timestamp
(`expires_at` is 0 initially; timestamps are rationals). -/
structure CacheEntry (α : Type) where
  data : Option α
  expires_at : ℚ
  deriving Repr, DecidableEq

/-- get_cached from src/server.py lines 127-135.  Result:
(returned payload, cache slot afterwards, whether the caller performed
the blocking fetch `fetch_fn()`).  `fetched` stands for the value the
blocking fetch would return. -/
def get_cached {α : Type} (e : CacheEntry α) (now ttl : ℚ) (fetched : α) :
    α × CacheEntry α × Bool :=
  match e.data with
  | some v =>
    if e.expires_at > now then (v, e, false)
    else (fetched, ⟨some fetched, now + ttl⟩, true)
  | none => (fetched, ⟨some fetched, now + ttl⟩, true)

/-- Hours payload: login → total hours, as an association list. -/
abbrev HoursMap : Type := List (String × ℚ)

/-- The location-hours branch of RequestHandler.handle_dashboard,
src/server.py lines 481-493.  Result: (hours_map used for the response,
hours_loading flag, whether _trigger_hours_fetch_bg was called).  This
code path never calls the fetch routine itself. -/
def dashboardHours (e : CacheEntry HoursMap) (now : ℚ) :
    HoursMap × Bool × Bool :=
  match e.data with
  | some m => (m, false, decide (e.expires_at ≤ now))
  | none => (([] : List (String × ℚ)), true, true)

/-- LOCATION_HOURS_TTL from src/server.py line 40 (seconds; the model
keeps it abstract-free as the literal 300). -/
def LOCATION_HOURS_TTL : ℚ := 300

/-- Effect of the body of _do_fetch (src/server.py lines 290-302) on the
location_hours cache slot once the fetch attempt finishes at time
`tDone`: on success (`some d`) the slot is replaced wholesale with the
new data and expiry `tDone + ttl`; on failure (`none`, i.e. the except
branch) the slot is not touched. -/
def doFetchComplete (e : CacheEntry HoursMap) (result : Option HoursMap)
    (tDone ttl : ℚ) : CacheEntry HoursMap :=
  match result with
  | some d => ⟨some d, tDone + ttl⟩
  | none => e

/-! ### Single-flight background fetch (src/server.py lines 282-305)

The mutex `_hours_fetch_lock` makes the test-and-set of
`_hours_fetch_running` in _trigger_hours_fetch_bg atomic, and _do_fetch
clears the flag in its `finally` block when the fetch attempt has
finished.  The model is a transition system: `running` is the flag,
`inflight` counts threads currently executing fetch_all_location_hours.
A finishing transition merges the return of fetch_all_location_hours
with the `finally` reset of the flag, which only the thread that set
the flag executes. -/

/-- Shared state of the hours single-flight machinery. -/
structure SFState where
  running : Bool
  inflight : ℕ
  deriving Repr, DecidableEq

/-- Atomic transitions of the single-flight machinery:
a call to _trigger_hours_fetch_bg that finds the flag clear (sets it and
spawns the fetch thread), a call that finds the flag set (returns
without doing anything), and a fetch thread finishing (its `finally`
clears the flag). -/
inductive SFStep : SFState → SFState → Prop
  | triggerStart (n : ℕ) : SFStep ⟨false, n⟩ ⟨true, n + 1⟩
  | triggerSkip (n : ℕ) : SFStep ⟨true, n⟩ ⟨true, n⟩
  | finish (b : Bool) (n : ℕ) : SFStep ⟨b, n + 1⟩ ⟨false, n⟩

/-- Initial state: flag clear, no fetch running (src/server.py line 44). -/
def SFInit : SFState := ⟨false, 0⟩

/-- States reachable from the initial single-flight state. -/
def SFReachable (s : SFState) : Prop :=
  Relation.ReflTransGen SFStep SFInit s

/-- Inductive invariant for the single-flight machinery. -/
def SFInv (s : SFState) : Prop :=
  s.inflight ≤ 1 ∧ (s.running = false → s.inflight = 0)

/-! ### Metrics engine (calculate_metrics, src/server.py lines 321-413;
the same computation is inlined in src/scripts/fetch_data.py lines
209-248).  Times are hours since PISCINE_START, dates are days since
PISCINE_START. -/

/-- PISCINE_DAYS, src/server.py line 22. -/
def PISCINE_DAYS : ℕ := 26

/-- TARGET_HOURS_PER_DAY, src/server.py line 23. -/
def TARGET_HOURS_PER_DAY : ℚ := 8

/-- Length of the piscine window in hours:
(PISCINE_END - PISCINE_START).total_seconds() / 3600 = 26 days. -/
def PISCINE_LEN_HOURS : ℚ := 24 * PISCINE_DAYS

/-- total_target = TARGET_HOURS_PER_DAY * PISCINE_DAYS (src/server.py
line 344). -/
def TOTAL_TARGET : ℚ := TARGET_HOURS_PER_DAY * PISCINE_DAYS

/-- The daily_hours dict built from the stats map (src/server.py lines
326-330): parse each duration, keep entries with hours > 0. -/
def daily_hours (stats : List (ℤ × Dur)) : List (ℤ × ℚ) :=
  stats.filterMap (fun p =>
    let h := parse_duration p.2
    if 0 < h then some (p.1, h) else none)

/-- total_hours = sum(daily_hours.values()) (src/server.py line 332),
before the active-session addition. -/
def rawStatsTotal (stats : List (ℤ × Dur)) : ℚ :=
  ((daily_hours stats).map (fun p => p.2)).sum

/-- active_extra_hours (src/server.py lines 335-338):
max(0, now - active_since) when an active session exists, else 0. -/
def active_extra (active_since : Option ℚ) (now : ℚ) : ℚ :=
  match active_since with
  | some t => max 0 (now - t)
  | none => 0

/-- total_hours after the active-session addition (src/server.py line
342), the un-rounded running value. -/
def rawTotal (stats : List (ℤ × Dur)) (active_since : Option ℚ) (now : ℚ) : ℚ :=
  rawStatsTotal stats + active_extra active_since now

/-- elapsed_hours (src/server.py lines 347-355). -/
def elapsedHours (now : ℚ) : ℚ :=
  if now < 0 then 0
  else if now > PISCINE_LEN_HOURS then PISCINE_LEN_HOURS
  else now

/-- elapsed_days (src/server.py lines 347-355). -/
def elapsedDays (now : ℚ) : ℚ :=
  if now < 0 then 0
  else if now > PISCINE_LEN_HOURS then (PISCINE_DAYS : ℚ)
  else now / 24

/-- expected_hours (src/server.py line 375). -/
def expectedHours (now : ℚ) : ℚ :=
  if elapsedHours now > 0 then elapsedHours now / 24 * TARGET_HOURS_PER_DAY else 0

/-- diff_from_target before reporting rounding (src/server.py line 376). -/
def diffRaw (stats : List (ℤ × Dur)) (active_since : Option ℚ) (now : ℚ) : ℚ :=
  rawTotal stats active_since now - expectedHours now

/-- progress_pct before reporting rounding (src/server.py line 372). -/
def progressRaw (total : ℚ) : ℚ :=
  if TOTAL_TARGET > 0 then min 100 (total / TOTAL_TARGET * 100) else 0

/-- One element of the daily breakdown (src/server.py lines 384-389;
the weekday field is a pure formatting of the date and is omitted). -/
structure DailyOut where
  date : ℤ
  hours : ℚ
  met_target : Bool
  deriving Repr, DecidableEq

/-- The daily breakdown loop (src/server.py lines 379-390): one record
per day d in [PISCINE_START, PISCINE_END), hours looked up in
daily_hours (0 when absent) and rounded to 2 decimals. -/
def dailyData (stats : List (ℤ × Dur)) : List DailyOut :=
  (List.range PISCINE_DAYS).map (fun (i : ℕ) =>
    let d : ℤ := (i : ℤ)
    let h : ℚ := round2 (((daily_hours stats).lookup d).getD 0)
    ⟨d, h, decide (h ≥ TARGET_HOURS_PER_DAY)⟩)

/-- The returned metrics dict (src/server.py lines 392-413).  The
constant date-string fields piscine_start / piscine_end and the weekday
strings are formatting only and are omitted; updated_at is the now
timestamp. -/
structure Metrics where
  login : String
  piscine_days : ℕ
  target_hours_per_day : ℚ
  total_target_hours : ℚ
  total_logged_hours : ℚ
  elapsed_days : ℚ
  elapsed_hours : ℚ
  avg_hours_per_day : ℚ
  remaining_days : ℚ
  remaining_hours_needed : ℚ
  required_avg_remaining : ℚ
  progress_pct : ℚ
  diff_from_target : ℚ
  on_track : Bool
  is_active : Bool
  active_extra_hours : ℚ
  daily : List DailyOut
  updated_at : ℚ
  deriving Repr, DecidableEq

/-- calculate_metrics, src/server.py lines 321-413, with the current
time `now` (which the code reads from the wall clock) passed explicitly
as hours since PISCINE_START. -/
def calculate_metrics (stats : List (ℤ × Dur)) (active_since : Option ℚ)
    (login : String) (now : ℚ) : Metrics :=
  let total := rawTotal stats active_since now
  let eh := elapsedHours now
  let ed := elapsedDays now
  let avg := if ed > 0 then total / ed else 0
  let rem := max 0 (TOTAL_TARGET - total)
  let rd := if now ≥ PISCINE_LEN_HOURS then 0 else (PISCINE_LEN_HOURS - max now 0) / 24
  let ra := if now ≥ PISCINE_LEN_HOURS then 0 else (if rd > 0 then rem / rd else 0)
  { login := login
    piscine_days := PISCINE_DAYS
    target_hours_per_day := TARGET_HOURS_PER_DAY
    total_target_hours := TOTAL_TARGET
    total_logged_hours := round2 total
    elapsed_days := round2 ed
    elapsed_hours := round2 eh
    avg_hours_per_day := round2 avg
    remaining_days := round2 rd
    remaining_hours_needed := round2 rem
    required_avg_remaining := round2 ra
    progress_pct := round1 (progressRaw total)
    diff_from_target := round2 (diffRaw stats active_since now)
    on_track := decide (diffRaw stats active_since now ≥ 0)
    is_active := active_since.isSome
    active_extra_hours := round2 (active_extra active_since now)
    daily := dailyData stats
    updated_at := now }

/-! ### Deviation pipeline (src/scripts/fetch_data.py) -/

/-- calc_deviation, src/scripts/fetch_data.py lines 108-112. -/
def calc_deviation (x mean std : ℚ) : ℚ :=
  if std = 0 then 50 else round1 (50 + 10 * (x - mean) / std)

/-- statistics.mean of a list of rationals. -/
def listMean (xs : List ℚ) : ℚ := xs.sum / (xs.length : ℚ)

/-- Square of statistics.stdev: the sample variance
sum((x - mean)^2) / (n - 1). -/
def sampleVar (xs : List ℚ) : ℚ :=
  ((xs.map (fun x => (x - listMean xs) ^ 2)).sum) / ((xs.length - 1 : ℕ) : ℚ)

/-- The per-metric mean/std selection of src/scripts/fetch_data.py lines
359-388: when the population has at least 2 members, mean is
statistics.mean and std is statistics.stdev unless that is not positive,
in which case 1; for fewer than 2 members the degenerate fallback
(0, 1).  Since stdev is an irrational square root in general, the
caller supplies `std`; theorems constrain it by std ≥ 0 and
std * std = sampleVar xs, the defining property of the sample standard
deviation. -/
def chosenMeanStd (xs : List ℚ) (std : ℚ) : ℚ × ℚ :=
  if 2 ≤ xs.length then (listMean xs, if std > 0 then std else 1) else (0, 1)

/-- ACTIVE_DAYS_THRESHOLD, src/scripts/fetch_data.py line 48. -/
def ACTIVE_DAYS_THRESHOLD : ℕ := 7

/-- ACTIVE_HOURS_THRESHOLD, src/scripts/fetch_data.py line 49. -/
def ACTIVE_HOURS_THRESHOLD : ℚ := 1

/-- Roster data of one student as built from cursus_users
(src/scripts/fetch_data.py lines 130-145); level comes from this roster
fetch, not from the per-student fetch. -/
structure RosterInfo where
  login : String
  display_name : String
  image_small : String
  level : ℚ
  deriving Repr, DecidableEq

/-- Outcome of the per-student fetch loop iteration
(src/scripts/fetch_data.py lines 182-353) for one student: full
success, first attempt failed but the single retry succeeded, or both
attempts failed. -/
inductive FetchOutcome where
  | ok (stats : List (ℤ × Dur)) (review_given : ℕ)
  | retryOk (stats : List (ℤ × Dur))
  | failed
  deriving Repr, DecidableEq

/-- State of one student after the fetch loop: the fields of
students[login] that the post-processing reads, plus whether
user_jsons has an entry for the login (it does exactly when the outer
try completed without exception). -/
structure ProcStudent where
  info : RosterInfo
  total_hours : Option ℚ
  fetch_failed : Bool
  daily : List DailyOut
  review_given : ℕ
  inUserJsons : Bool
  deriving Repr, DecidableEq

/-- The retry path sums parse_duration over every value of the stats
map with no positivity filter (src/scripts/fetch_data.py line 344). -/
def sumAllDurations (stats : List (ℤ × Dur)) : ℚ :=
  (stats.map (fun p => parse_duration p.2)).sum

/-- Effect of one iteration of the fetch loop
(src/scripts/fetch_data.py lines 182-353) on students[login] and
user_jsons, by outcome:
* ok: total_hours and the 26-day daily list are built from the stats
  map (lines 186-248), fetch_failed stays absent (False), review count
  recorded, user_jsons gets the entry;
* retryOk: the except branch sets total_hours from the refetched stats
  and fetch_failed = False (lines 341-347), but daily keeps its initial
  empty value and no user_jsons entry is written;
* failed: total_hours = None, fetch_failed = True (lines 337-338),
  daily stays empty, no user_jsons entry. -/
def processStudent (info : RosterInfo) (f : FetchOutcome) : ProcStudent :=
  match f with
  | .ok stats rg =>
    ⟨info, some (round2 (rawStatsTotal stats)), false, dailyData stats, rg, true⟩
  | .retryOk stats =>
    ⟨info, some (round2 (sumAllDurations stats)), false, [], 0, false⟩
  | .failed => ⟨info, none, true, [], 0, false⟩

/-- Population of the level deviation (src/scripts/fetch_data.py line
359): the level of every student with level > 0. -/
def levelPopulation (ss : List ProcStudent) : List ℚ :=
  (ss.filter (fun s => decide (0 < s.info.level))).map (fun s => s.info.level)

/-- The actively-engaged filter of the hours population
(src/scripts/fetch_data.py line 372): some daily record has date ≥ the
cutoff date (now minus ACTIVE_DAYS_THRESHOLD days) and hours ≥
ACTIVE_HOURS_THRESHOLD. -/
def activeFilter (cutoff : ℤ) (daily : List DailyOut) : Bool :=
  daily.any (fun d => decide (d.date ≥ cutoff) && decide (d.hours ≥ ACTIVE_HOURS_THRESHOLD))

/-- Population of the hours deviation (src/scripts/fetch_data.py lines
368-373): total_hours of the students passing the actively-engaged
filter. -/
def hoursPopulation (cutoff : ℤ) (ss : List ProcStudent) : List (Option ℚ) :=
  (ss.filter (fun s => activeFilter cutoff s.daily)).map (fun s => s.total_hours)

/-- Population of the review deviation (src/scripts/fetch_data.py line
383): review_given of every student that has a user_jsons entry. -/
def reviewPopulation (ss : List ProcStudent) : List ℕ :=
  (ss.filter (fun s => s.inUserJsons)).map (fun s => s.review_given)

/-- Cutoff date used by the hours-population filter
(src/scripts/fetch_data.py line 368): the calendar date of now minus
ACTIVE_DAYS_THRESHOLD days. -/
def sevenDaysAgo (nowDate : ℤ) : ℤ := nowDate - (ACTIVE_DAYS_THRESHOLD : ℤ)

/-- Reading of claim C6 in which the hours threshold applies to the
TOTAL hours logged within the trailing window: the sum of the parsed
durations of the stats entries whose date is at or after the cutoff.
This definition follows the claim's words, not the code, and exists to
be compared with the code's per-day activeFilter. -/
def claimWindowHours (cutoff : ℤ) (stats : List (ℤ × Dur)) : ℚ :=
  ((stats.filter (fun p => decide (p.1 ≥ cutoff))).map (fun p => parse_duration p.2)).sum

/-- One entry of the dashboard data.json roster
(src/scripts/fetch_data.py lines 428-440).  The location fields merged
into online entries do not interact with any claim and are omitted. -/
structure DashEntry where
  login : String
  display_name : String
  image_small : String
  total_hours : Option ℚ
  level : ℚ
  level_deviation : Option ℚ
  hours_deviation : Option ℚ
  review_deviation : Option ℚ
  composite_deviation : Option ℚ
  review_given : Option ℕ
  fetch_failed : Bool
  deriving Repr, DecidableEq

/-- Entry construction, src/scripts/fetch_data.py lines 427-440.  The
ld/hd/rvd/cd/rg arguments are the deviation and review values stored in
students[login] by the post-processing (present exactly for user_jsons
members); dict misses fall back to 50.0 and 0 as in the code. -/
def dashEntry (s : ProcStudent) (ld hd rvd cd : Option ℚ) (rg : Option ℕ) : DashEntry :=
  { login := s.info.login
    display_name := s.info.display_name
    image_small := s.info.image_small
    total_hours := if s.fetch_failed then none else s.total_hours
    level := s.info.level
    level_deviation := if s.fetch_failed then none else some (ld.getD 50)
    hours_deviation := if s.fetch_failed then none else some (hd.getD 50)
    review_deviation := if s.fetch_failed then none else some (rvd.getD 50)
    composite_deviation := if s.fetch_failed then none else some (cd.getD 50)
    review_given := if s.fetch_failed then none else some (rg.getD 0)
    fetch_failed := s.fetch_failed }

/-- Sorting of each dashboard partition (src/scripts/fetch_data.py
lines 447-448): by total_hours descending, a missing value counting as
0 for the sort key only. -/
def sortByHoursDesc (l : List DashEntry) : List DashEntry :=
  l.mergeSort (fun a b => decide (b.total_hours.getD 0 ≤ a.total_hours.getD 0))

/-- Dashboard roster construction (src/scripts/fetch_data.py lines
419-448): every student becomes one entry, put in the online partition
when the login has an active location and in the offline partition
otherwise, each partition then sorted by hours descending. `store`
gives the five optional per-login stored values fed to dashEntry. -/
def buildDashboard (ss : List ProcStudent)
    (store : String → Option ℚ × Option ℚ × Option ℚ × Option ℚ × Option ℕ)
    (onlineLogins : List String) : List DashEntry × List DashEntry :=
  let mkEntry := fun s =>
    let q := store s.info.login
    dashEntry s q.1 q.2.1 q.2.2.1 q.2.2.2.1 q.2.2.2.2
  let online := (ss.filter (fun s => decide (s.info.login ∈ onlineLogins))).map mkEntry
  let offline := (ss.filter (fun s => !decide (s.info.login ∈ onlineLogins))).map mkEntry
  (sortByHoursDesc online, sortByHoursDesc offline)

/-! ### Helper lemmas -/

theorem pyRound_intCast (n : ℤ) : pyRound (n : ℚ) = n := by
  norm_num [pyRound, Int.floor_intCast]

theorem pyRound_le_of_le {q : ℚ} {n : ℤ} (h : q ≤ (n : ℚ)) : pyRound q ≤ n := by
  have hfle : ⌊q⌋ ≤ n := by
    have := Int.floor_mono h
    simpa using this
  have key : ¬(q - (⌊q⌋ : ℚ) < 1/2) → ⌊q⌋ + 1 ≤ n := by
    intro h1
    have hq : (⌊q⌋ : ℚ) + 1/2 ≤ q := by linarith [le_of_not_lt h1]
    have hlt : (⌊q⌋ : ℚ) < (n : ℚ) := by linarith
    exact_mod_cast Int.add_one_le_of_lt (by exact_mod_cast hlt)
  unfold pyRound
  split_ifs with h1 h2 h3
  · exact hfle
  · exact key h1
  · exact hfle
  · exact key h1

theorem pyRound_nonneg {q : ℚ} (h : 0 ≤ q) : 0 ≤ pyRound q := by
  have h0 : (0:ℤ) ≤ ⌊q⌋ := Int.le_floor.mpr (by exact_mod_cast h)
  unfold pyRound
  split_ifs <;> omega

theorem round1_intCast (n : ℤ) : round1 (n : ℚ) = n := by
  have : ((n : ℚ) * 10) = ((n * 10 : ℤ) : ℚ) := by push_cast; ring
  rw [round1, this, pyRound_intCast]
  push_cast
  ring

theorem round1_le_of_le {q : ℚ} {n : ℤ} (h : q ≤ (n : ℚ)) : round1 q ≤ (n : ℚ) := by
  have h10 : q * 10 ≤ ((n * 10 : ℤ) : ℚ) := by push_cast; linarith
  have := pyRound_le_of_le h10
  rw [round1]
  have hc : (pyRound (q * 10) : ℚ) ≤ ((n * 10 : ℤ) : ℚ) := by exact_mod_cast this
  push_cast at hc
  linarith

theorem round2_nonneg {q : ℚ} (h : 0 ≤ q) : 0 ≤ round2 q := by
  have : (0:ℤ) ≤ pyRound (q * 100) := pyRound_nonneg (by linarith)
  rw [round2]
  positivity

theorem sfInv_init : SFInv SFInit := by constructor <;> simp [SFInit]

theorem sfInv_step {s t : SFState} (hs : SFInv s) (h : SFStep s t) : SFInv t := by
  obtain ⟨h1, h2⟩ := hs
  cases h with
  | triggerStart n =>
    have : n = 0 := h2 rfl
    subst this
    exact ⟨le_refl 1, by simp⟩
  | triggerSkip n => exact ⟨h1, h2⟩
  | finish b n =>
    have h1' : n + 1 ≤ 1 := h1
    refine ⟨?_, fun _ => ?_⟩
    · show n ≤ 1
      omega
    · show n = 0
      omega

theorem sfInv_reachable {s : SFState} (h : SFReachable s) : SFInv s := by
  induction h with
  | refl => exact sfInv_init
  | tail _ hstep ih => exact sfInv_step ih hstep

theorem lookup_mem_values {l : List (ℤ × ℚ)} {a : ℤ} {b : ℚ}
    (h : List.lookup a l = some b) : b ∈ l.map (fun p => p.2) := by
  induction l with
  | nil => simp [List.lookup] at h
  | cons p t ih =>
    rw [List.lookup] at h
    by_cases hpk : a == p.1
    · rw [hpk] at h
      simp at h
      simp [h]
    · rw [Bool.not_eq_true] at hpk
      rw [hpk] at h
      simp [ih h]

theorem lookup_cons_ne {a k : ℤ} (v : ℚ) (l : List (ℤ × ℚ)) (h : a ≠ k) :
    List.lookup a ((k, v) :: l) = List.lookup a l := by
  have hb : (a == k) = false := beq_eq_false_iff_ne.mpr h
  simp [List.lookup, hb]

theorem daily_hours_cons_pos {p : ℤ × Dur} (t : List (ℤ × Dur))
    (hpos : 0 < parse_duration p.2) :
    daily_hours (p :: t) = (p.1, parse_duration p.2) :: daily_hours t := by
  rw [daily_hours, daily_hours, List.filterMap_cons]
  simp [hpos]

theorem daily_hours_cons_nonpos {p : ℤ × Dur} (t : List (ℤ × Dur))
    (hpos : ¬0 < parse_duration p.2) :
    daily_hours (p :: t) = daily_hours t := by
  rw [daily_hours, daily_hours, List.filterMap_cons]
  simp [hpos]

theorem rawStatsTotal_cons (p : ℤ × Dur) (t : List (ℤ × Dur)) :
    rawStatsTotal (p :: t) =
      (if 0 < parse_duration p.2 then parse_duration p.2 else 0) + rawStatsTotal t := by
  by_cases hpos : 0 < parse_duration p.2
  · rw [rawStatsTotal, daily_hours_cons_pos t hpos, List.map_cons, List.sum_cons,
      if_pos hpos, rawStatsTotal]
  · rw [rawStatsTotal, daily_hours_cons_nonpos t hpos, if_neg hpos, zero_add, rawStatsTotal]

theorem activeFilter_dailyData_false {stats : List (ℤ × Dur)} (cutoff : ℤ)
    (hlt : ∀ v ∈ (daily_hours stats).map (fun p => p.2),
      round2 v < ACTIVE_HOURS_THRESHOLD) :
    activeFilter cutoff (dailyData stats) = false := by
  rw [activeFilter, List.any_eq_false]
  intro d hd
  rw [dailyData] at hd
  obtain ⟨i, hi, rfl⟩ := List.mem_map.mp hd
  simp only [Bool.and_eq_true, decide_eq_true_eq, not_and]
  intro _
  cases hl : List.lookup (i : ℤ) (daily_hours stats) with
  | none =>
    simp only [hl, Option.getD_none]
    have : round2 0 < ACTIVE_HOURS_THRESHOLD := by
      norm_num [round2, pyRound, ACTIVE_HOURS_THRESHOLD]
    exact not_le.mpr this
  | some v =>
    simp only [hl, Option.getD_some]
    exact not_le.mpr (hlt v (lookup_mem_values hl))

/-! ### Claim theorems -/

/-- C1, counterexample: a get_cached read of an entry that holds a value
(data = some 1) but is expired (expires_at = now = 10) performs the
blocking fetch (flag true) and returns the freshly fetched value, not
the stale one — so a blocking fetch does not happen only on a miss, and
the stale value is not what the caller gets. -/
theorem c1_get_cached_blocks_when_expired :
    (get_cached (⟨some (1:ℚ), 10⟩ : CacheEntry ℚ) 10 300 2).2.2 = true ∧
    (⟨some (1:ℚ), 10⟩ : CacheEntry ℚ).data ≠ none ∧
    (get_cached (⟨some (1:ℚ), 10⟩ : CacheEntry ℚ) 10 300 2).1 ≠ 1 := by
  refine ⟨?_, by simp, ?_⟩ <;> norm_num [get_cached]

/-- C1, amended: get_cached performs the blocking fetch exactly when the
entry has no data or is expired, and returns the cached value without
fetching only while the entry is fresh; the stale-serving behaviour the
claim describes holds only for the location_hours read in
handle_dashboard, which never fetches in the caller: with data present
it returns the stored (possibly stale) value and triggers the
background refresh exactly when the entry is expired. -/
theorem c1_cache_read_behaviour {α : Type} (e : CacheEntry α) (now ttl : ℚ) (f : α) :
    ((get_cached e now ttl f).2.2 = true ↔ (e.data = none ∨ e.expires_at ≤ now)) ∧
    (∀ v : α, e.data = some v → now < e.expires_at → get_cached e now ttl f = (v, e, false)) ∧
    (∀ (e' : CacheEntry HoursMap) (m : HoursMap), e'.data = some m →
      (dashboardHours e' now).1 = m ∧ (dashboardHours e' now).2.1 = false ∧
      ((dashboardHours e' now).2.2 = true ↔ e'.expires_at ≤ now)) := by
  refine ⟨?_, ?_, ?_⟩
  · cases e with
    | mk d x =>
      cases d with
      | none => simp [get_cached]
      | some v =>
        by_cases h : x > now
        · simp [get_cached, h]
        · simp [get_cached, h]
          exact le_of_not_lt h
  · intro v hv hlt
    cases e with
    | mk d x =>
      cases d with
      | none => simp at hv
      | some w =>
        obtain rfl : w = v := by simpa using hv
        simp only [get_cached]
        rw [if_pos (by simpa using hlt)]
  · intro e' m hm
    cases e' with
    | mk d x =>
      cases d with
      | none => simp at hm
      | some w =>
        obtain rfl : w = m := by simpa using hm
        refine ⟨rfl, rfl, ?_⟩
        simp [dashboardHours]

/-- C1, witness for the amended theorem at concrete inputs: a fresh
entry is served without fetching, and a dashboard read with cached data
returns that data. -/
theorem c1_cache_read_behaviour_witness :
    get_cached (⟨some (5:ℚ), 10⟩ : CacheEntry ℚ) 3 300 7 = (5, ⟨some 5, 10⟩, false) ∧
    (dashboardHours ⟨some [("a", 2)], 10⟩ 3).1 = [("a", 2)] := by
  have h := c1_cache_read_behaviour (⟨some (5:ℚ), 10⟩ : CacheEntry ℚ) 3 300 7
  refine ⟨h.2.1 5 rfl (by norm_num), ?_⟩
  exact (h.2.2 ⟨some [("a", 2)], 10⟩ [("a", 2)] rfl).1

/-- C2: in every state reachable by the single-flight transition system
from the initial state (flag clear, nothing running), at most one
execution of the expensive hours fetch is in flight: the mutex-guarded
running-flag test in _trigger_hours_fetch_bg never lets a second fetch
start while one is running. -/
theorem c2_single_flight_invariant (s : SFState) (h : SFReachable s) :
    s.inflight ≤ 1 :=
  (sfInv_reachable h).1

/-- C2, witness: the state after one trigger (flag set, one fetch in
flight) is reachable and satisfies the bound. -/
theorem c2_single_flight_invariant_witness :
    SFReachable ⟨true, 1⟩ ∧ (⟨true, 1⟩ : SFState).inflight ≤ 1 := by
  have hr : SFReachable ⟨true, 1⟩ :=
    Relation.ReflTransGen.single (SFStep.triggerStart 0)
  exact ⟨hr, c2_single_flight_invariant ⟨true, 1⟩ hr⟩

/-- C3: when the background hours refresh fails (the except branch of
_do_fetch), the cache slot is left entirely unchanged — same stale data,
same old expiry — and a dashboard read of the still-expired entry keeps
serving the stale value and triggers a new background refresh attempt. -/
theorem c3_failed_refresh_leaves_entry (e : CacheEntry HoursMap)
    (tDone ttl now : ℚ) (v : HoursMap)
    (hdata : e.data = some v) (hexp : e.expires_at ≤ now) :
    doFetchComplete e none tDone ttl = e ∧
    dashboardHours e now = (v, false, true) := by
  refine ⟨rfl, ?_⟩
  cases e with
  | mk d x =>
    cases d with
    | none => simp at hdata
    | some w =>
      obtain rfl : w = v := by simpa using hdata
      simp only [dashboardHours]
      simp at hexp
      simp [hexp]

/-- C3, witness at a concrete expired entry. -/
theorem c3_failed_refresh_leaves_entry_witness :
    doFetchComplete (⟨some [("a", 1)], 4⟩ : CacheEntry HoursMap) none 9 300 =
      (⟨some [("a", 1)], 4⟩ : CacheEntry HoursMap) ∧
    dashboardHours (⟨some [("a", 1)], 4⟩ : CacheEntry HoursMap) 7 = ([("a", 1)], false, true) :=
  c3_failed_refresh_leaves_entry ⟨some [("a", 1)], 4⟩ 9 300 7 [("a", 1)] rfl (by norm_num)

/-- C4, counterexample: a student whose per-student fetch failed is NOT
excluded from every statistical population used for deviation scoring:
the level population (fetch_data.py line 359) still contains the failed
student's level (3 here), because level comes from the roster fetch. -/
theorem c4_level_population_includes_failed :
    (processStudent ⟨"bob", "B", "", 3⟩ .failed).fetch_failed = true ∧
    (processStudent ⟨"bob", "B", "", 3⟩ .failed).info.level ∈
      levelPopulation [processStudent ⟨"alice", "A", "", 5⟩ (.ok [] 0),
        processStudent ⟨"bob", "B", "", 3⟩ .failed] := by
  refine ⟨rfl, ?_⟩
  norm_num [processStudent, levelPopulation, List.filter_cons]

/-- C4, amended: a student whose fetch failed (including the retry)
gets a dashboard entry with null total_hours, null deviation fields,
null review count and an explicit fetch_failed flag — never a silent
zero — appears in the published roster, and is excluded from the hours
and review deviation populations; the level population, however, still
includes the student (see the counterexample). -/
theorem c4_failed_student_reporting (info : RosterInfo) (cutoff : ℤ)
    (ld hd rvd cd : Option ℚ) (rg : Option ℕ) :
    dashEntry (processStudent info .failed) ld hd rvd cd rg =
      ⟨info.login, info.display_name, info.image_small, none, info.level,
        none, none, none, none, none, true⟩ ∧
    (∀ ss₁ ss₂ : List ProcStudent,
      hoursPopulation cutoff (ss₁ ++ processStudent info .failed :: ss₂) =
        hoursPopulation cutoff (ss₁ ++ ss₂)) ∧
    (∀ ss₁ ss₂ : List ProcStudent,
      reviewPopulation (ss₁ ++ processStudent info .failed :: ss₂) =
        reviewPopulation (ss₁ ++ ss₂)) ∧
    (∀ (ss : List ProcStudent)
      (store : String → Option ℚ × Option ℚ × Option ℚ × Option ℚ × Option ℕ)
      (onlineLogins : List String),
      processStudent info .failed ∈ ss →
      ∃ en ∈ (buildDashboard ss store onlineLogins).1 ++
          (buildDashboard ss store onlineLogins).2,
        en.login = info.login ∧ en.fetch_failed = true ∧ en.total_hours = none ∧
        en.level_deviation = none ∧ en.hours_deviation = none ∧
        en.review_deviation = none ∧ en.composite_deviation = none ∧
        en.review_given = none) := by
  refine ⟨rfl, ?_, ?_, ?_⟩
  · intro ss₁ ss₂
    simp [hoursPopulation, List.filter_append, List.filter_cons, activeFilter, processStudent]
  · intro ss₁ ss₂
    simp [reviewPopulation, List.filter_append, List.filter_cons, processStudent]
  · intro ss store onlineLogins hmem
    set s := processStudent info .failed with hs
    set q := store s.info.login with hq
    refine ⟨dashEntry s q.1 q.2.1 q.2.2.1 q.2.2.2.1 q.2.2.2.2, ?_, ?_⟩
    · rw [List.mem_append]
      by_cases hon : s.info.login ∈ onlineLogins
      · left
        simp only [buildDashboard, sortByHoursDesc]
        rw [(List.mergeSort_perm _ _).mem_iff]
        exact List.mem_map_of_mem _ (List.mem_filter.mpr ⟨hmem, by simp [hon]⟩)
      · right
        simp only [buildDashboard, sortByHoursDesc]
        rw [(List.mergeSort_perm _ _).mem_iff]
        exact List.mem_map_of_mem _ (List.mem_filter.mpr ⟨hmem, by simp [hon]⟩)
    · simp [hs, dashEntry, processStudent]

/-- C4, witness for the amended theorem at a concrete failed student in
a one-student roster. -/
theorem c4_failed_student_reporting_witness :
    dashEntry (processStudent ⟨"bob", "B", "", 3⟩ .failed) none none none none none =
      ⟨"bob", "B", "", none, 3, none, none, none, none, none, true⟩ ∧
    hoursPopulation 9 ([] ++ processStudent ⟨"bob", "B", "", 3⟩ .failed :: []) =
      hoursPopulation 9 ([] ++ []) ∧
    ∃ en ∈ (buildDashboard [processStudent ⟨"bob", "B", "", 3⟩ .failed]
          (fun _ => (none, none, none, none, none)) []).1 ++
        (buildDashboard [processStudent ⟨"bob", "B", "", 3⟩ .failed]
          (fun _ => (none, none, none, none, none)) []).2,
      en.login = "bob" ∧ en.fetch_failed = true ∧ en.total_hours = none ∧
      en.level_deviation = none ∧ en.hours_deviation = none ∧
      en.review_deviation = none ∧ en.composite_deviation = none ∧
      en.review_given = none := by
  have h := c4_failed_student_reporting ⟨"bob", "B", "", 3⟩ 9 none none none none none
  exact ⟨h.1, h.2.1 [] [], h.2.2.2 _ _ [] (by simp)⟩

/-- C5: calc_deviation returns exactly 50.0 whenever std = 0, for every
x and mean; and for a cohort of exactly two equal raw values, the
deviation pipeline (population mean, sample standard deviation with the
positive-std fallback, then calc_deviation) scores both members exactly
50.0 (the two members have the same raw value, so one conclusion covers
both). -/
theorem c5_zero_std_scores_fifty :
    (∀ x m : ℚ, calc_deviation x m 0 = 50) ∧
    (∀ v std : ℚ, 0 ≤ std → std * std = sampleVar [v, v] →
      calc_deviation v (chosenMeanStd [v, v] std).1 (chosenMeanStd [v, v] std).2 = 50) := by
  have h50 : round1 (50 : ℚ) = 50 := by
    have h := round1_intCast 50
    norm_num at h
    exact h
  constructor
  · intro x m
    simp [calc_deviation]
  · intro v std hnn hsq
    have hm : listMean [v, v] = v := by
      simp [listMean]
      try ring
    have hvar : sampleVar [v, v] = 0 := by
      simp [sampleVar, hm]
    have hstd : std = 0 := mul_self_eq_zero.mp (hsq.trans hvar)
    subst hstd
    have hcs : chosenMeanStd [v, v] 0 = (v, 1) := by
      simp [chosenMeanStd, hm]
    rw [hcs]
    simp [calc_deviation, h50]

/-- C5, witness: concrete instances of both parts (x = 3, mean = 7 with
zero std; the two-element cohort with both values 2). -/
theorem c5_zero_std_scores_fifty_witness :
    calc_deviation 3 7 0 = 50 ∧
    (0 : ℚ) * 0 = sampleVar [2, 2] ∧
    calc_deviation 2 (chosenMeanStd [2, 2] 0).1 (chosenMeanStd [2, 2] 0).2 = 50 := by
  have hv : sampleVar [(2:ℚ), 2] = 0 := by
    norm_num [sampleVar, listMean]
  have h := c5_zero_std_scores_fifty
  exact ⟨h.1 3 7, by rw [hv]; norm_num, h.2 2 0 (le_refl 0) (by rw [hv]; norm_num)⟩

/-- C6, counterexample: a student with two recent days of 0.6h each
(duration 00:36:00 on days 10 and 11, cutoff day 9 for now-date 16) has
logged 1.2h ≥ ACTIVE_HOURS_THRESHOLD within the trailing window, yet the
code's population is empty: the filter requires a SINGLE day at or above
the threshold, not a window total. -/
theorem c6_window_total_not_in_population :
    claimWindowHours (sevenDaysAgo 16)
        [((10:ℤ), (some (0, 36, 0) : Dur)), ((11:ℤ), (some (0, 36, 0) : Dur))] ≥
      ACTIVE_HOURS_THRESHOLD ∧
    hoursPopulation (sevenDaysAgo 16)
      [processStudent ⟨"carol", "C", "", 0⟩
        (.ok [((10:ℤ), (some (0, 36, 0) : Dur)), ((11:ℤ), (some (0, 36, 0) : Dur))] 0)] = [] := by
  have hsd : sevenDaysAgo 16 = 9 := by
    norm_num [sevenDaysAgo, ACTIVE_DAYS_THRESHOLD]
  constructor
  · rw [hsd]
    norm_num [claimWindowHours, parse_duration, ACTIVE_HOURS_THRESHOLD, List.filter_cons]
  · rw [hsd]
    have hdh : daily_hours [((10:ℤ), (some (0, 36, 0) : Dur)), ((11:ℤ), (some (0, 36, 0) : Dur))] =
        [(10, 3/5), (11, 3/5)] := by
      norm_num [daily_hours, parse_duration, List.filterMap_cons]
    have hfa : activeFilter 9 (dailyData
        [((10:ℤ), (some (0, 36, 0) : Dur)), ((11:ℤ), (some (0, 36, 0) : Dur))]) = false := by
      apply activeFilter_dailyData_false
      rw [hdh]
      intro v hv
      simp only [List.map_cons, List.map_nil, List.mem_cons, List.not_mem_nil, or_false] at hv
      have hv' : v = 3/5 := by
        rcases hv with h | h
        · exact h
        · exact h
      rw [hv']
      norm_num [round2, pyRound, ACTIVE_HOURS_THRESHOLD, Int.floor_eq_iff]
    simp [hoursPopulation, List.filter_cons, processStudent, hfa]

/-- C6, amended: the hours-deviation population contains exactly those
students having AT LEAST ONE daily record dated at or after the cutoff
(now minus ACTIVE_DAYS_THRESHOLD days) whose per-day hours are at least
ACTIVE_HOURS_THRESHOLD; the threshold is per single day, not the window
total. -/
theorem c6_hours_population_rule (nowDate : ℤ) (ss : List ProcStudent) :
    hoursPopulation (sevenDaysAgo nowDate) ss =
      (ss.filter (fun s => decide (∃ d ∈ s.daily, sevenDaysAgo nowDate ≤ d.date ∧
        ACTIVE_HOURS_THRESHOLD ≤ d.hours))).map (fun s => s.total_hours) := by
  rw [hoursPopulation]
  congr 1
  apply List.filter_congr
  intro s _
  cases haf : activeFilter (sevenDaysAgo nowDate) s.daily with
  | false =>
    symm
    rw [decide_eq_false_iff_not]
    rw [activeFilter, List.any_eq_false] at haf
    rintro ⟨d, hd, h1, h2⟩
    have := haf d hd
    simp only [Bool.and_eq_true, decide_eq_true_eq, not_and] at this
    exact absurd h2 (this h1)
  | true =>
    symm
    rw [decide_eq_true_eq]
    rw [activeFilter, List.any_eq_true] at haf
    obtain ⟨d, hd, hp⟩ := haf
    simp only [Bool.and_eq_true, decide_eq_true_eq] at hp
    exact ⟨d, hd, hp.1, hp.2⟩

/-- C7: the computed progress value is min(100, total / total_target *
100); the published progress_pct field is that value rounded to one
decimal, equals exactly 100 when the un-rounded total equals the target
exactly, and never exceeds 100 for any input. -/
theorem c7_progress_pct_capped :
    (∀ t : ℚ, progressRaw t = min 100 (t / TOTAL_TARGET * 100)) ∧
    (∀ (stats : List (ℤ × Dur)) (a : Option ℚ) (login : String) (now : ℚ),
      (calculate_metrics stats a login now).progress_pct =
        round1 (progressRaw (rawTotal stats a now))) ∧
    (∀ (stats : List (ℤ × Dur)) (a : Option ℚ) (login : String) (now : ℚ),
      rawTotal stats a now = TOTAL_TARGET →
      (calculate_metrics stats a login now).progress_pct = 100) ∧
    (∀ (stats : List (ℤ × Dur)) (a : Option ℚ) (login : String) (now : ℚ),
      (calculate_metrics stats a login now).progress_pct ≤ 100) := by
  have htt : (0:ℚ) < TOTAL_TARGET := by
    norm_num [TOTAL_TARGET, TARGET_HOURS_PER_DAY, PISCINE_DAYS]
  have h1 : ∀ t : ℚ, progressRaw t = min 100 (t / TOTAL_TARGET * 100) := by
    intro t
    rw [progressRaw, if_pos htt]
  have h2 : ∀ (stats : List (ℤ × Dur)) (a : Option ℚ) (login : String) (now : ℚ),
      (calculate_metrics stats a login now).progress_pct =
        round1 (progressRaw (rawTotal stats a now)) := fun _ _ _ _ => rfl
  have h100 : round1 (100 : ℚ) = 100 := by
    have h := round1_intCast 100
    norm_num at h
    exact h
  refine ⟨h1, h2, ?_, ?_⟩
  · intro stats a login now heq
    rw [h2, heq, h1]
    have : TOTAL_TARGET / TOTAL_TARGET * 100 = 100 := by
      rw [div_self (ne_of_gt htt)]
      norm_num
    rw [this]
    simpa using h100
  · intro stats a login now
    rw [h2]
    have hle : progressRaw (rawTotal stats a now) ≤ ((100:ℤ) : ℚ) := by
      rw [h1]
      exact le_trans (min_le_left _ _) (by norm_num)
    have := round1_le_of_le hle
    simpa using this

/-- C7, witness: a student whose raw total is exactly the 208-hour
target has progress_pct exactly 100. -/
theorem c7_progress_pct_capped_witness :
    rawTotal [((0:ℤ), (some (208, 0, 0) : Dur))] none 5 = TOTAL_TARGET ∧
    (calculate_metrics [((0:ℤ), (some (208, 0, 0) : Dur))] none "x" 5).progress_pct = 100 := by
  have hr : rawTotal [((0:ℤ), (some (208, 0, 0) : Dur))] none 5 = TOTAL_TARGET := by
    norm_num [rawTotal, rawStatsTotal, daily_hours, active_extra, parse_duration,
      List.filterMap_cons, TOTAL_TARGET, TARGET_HOURS_PER_DAY, PISCINE_DAYS]
  exact ⟨hr, c7_progress_pct_capped.2.2.1 _ none "x" 5 hr⟩

/-- C8, counterexample: a student with a single day of 00:59:59 logged,
evaluated 3 hours into the piscine, has raw diff -1/3600: on_track is
false, yet the published diff_from_target rounds to 0.00 which is ≥ 0 —
so the reported on_track is NOT equivalent to reported diff_from_target
≥ 0. -/
theorem c8_reported_fields_disagree :
    (calculate_metrics [((0:ℤ), (some (0, 59, 59) : Dur))] none "x" 3).on_track = false ∧
    (calculate_metrics [((0:ℤ), (some (0, 59, 59) : Dur))] none "x" 3).diff_from_target ≥ 0 := by
  constructor
  · norm_num [calculate_metrics, diffRaw, rawTotal, rawStatsTotal, daily_hours, active_extra,
      parse_duration, List.filterMap_cons, List.filterMap_nil,
      expectedHours, elapsedHours, PISCINE_LEN_HOURS, PISCINE_DAYS, TARGET_HOURS_PER_DAY]
  · norm_num [calculate_metrics, diffRaw, rawTotal, rawStatsTotal, daily_hours, active_extra,
      parse_duration, List.filterMap_cons, List.filterMap_nil,
      expectedHours, elapsedHours, PISCINE_LEN_HOURS, PISCINE_DAYS, TARGET_HOURS_PER_DAY,
      round2, pyRound, Int.floor_eq_iff]

/-- C8, amended: on_track is true exactly when the UN-rounded difference
total - expected is ≥ 0; on_track = true implies the reported (rounded)
diff_from_target is ≥ 0, but not conversely, since diff_from_target is
the rounded value and can round a small negative difference up to 0. -/
theorem c8_on_track_iff_unrounded_diff (stats : List (ℤ × Dur)) (a : Option ℚ)
    (login : String) (now : ℚ) :
    ((calculate_metrics stats a login now).on_track = true ↔ diffRaw stats a now ≥ 0) ∧
    ((calculate_metrics stats a login now).on_track = true →
      (calculate_metrics stats a login now).diff_from_target ≥ 0) ∧
    (calculate_metrics stats a login now).diff_from_target = round2 (diffRaw stats a now) := by
  have hiff : (calculate_metrics stats a login now).on_track = true ↔
      diffRaw stats a now ≥ 0 := by
    show decide (diffRaw stats a now ≥ 0) = true ↔ _
    exact decide_eq_true_eq.to_iff
  refine ⟨hiff, ?_, rfl⟩
  intro h
  exact round2_nonneg (hiff.mp h)

/-- C8, witness for the amended theorem: a student with 8 hours logged
at the piscine start is on track and reports a non-negative diff. -/
theorem c8_on_track_iff_unrounded_diff_witness :
    (calculate_metrics [((0:ℤ), (some (8, 0, 0) : Dur))] none "x" 0).on_track = true ∧
    (calculate_metrics [((0:ℤ), (some (8, 0, 0) : Dur))] none "x" 0).diff_from_target ≥ 0 := by
  have h := c8_on_track_iff_unrounded_diff [((0:ℤ), (some (8, 0, 0) : Dur))] none "x" 0
  have hdr : diffRaw [((0:ℤ), (some (8, 0, 0) : Dur))] none 0 ≥ 0 := by
    norm_num [diffRaw, rawTotal, rawStatsTotal, daily_hours, active_extra, parse_duration,
      List.filterMap_cons, List.filterMap_nil, expectedHours, elapsedHours,
      PISCINE_LEN_HOURS, PISCINE_DAYS, TARGET_HOURS_PER_DAY]
  exact ⟨h.1.mpr hdr, h.2.1 (h.1.mpr hdr)⟩

/-- C9: the metrics computation is a deterministic pure function of the
stats map, the active-since timestamp, the login and the frozen time
now: two evaluations on identical inputs agree in every field. -/
theorem c9_metrics_deterministic (stats : List (ℤ × Dur)) (a : Option ℚ)
    (login : String) (now : ℚ) :
    calculate_metrics stats a login now = calculate_metrics stats a login now := rfl

/-- C10: for every input the daily sequence has exactly one record per
calendar day of the program window, in chronological order — dates
0..25, PISCINE_DAYS records — while total_logged_hours is the rounded
sum over EVERY stats entry (plus the active extra), entries outside the
window included: prepending an out-of-window entry with positive parsed
duration leaves the daily breakdown unchanged but adds its duration to
the raw total. -/
theorem c10_daily_window_and_total (stats : List (ℤ × Dur)) (a : Option ℚ)
    (login : String) (now : ℚ) :
    ((calculate_metrics stats a login now).daily.map (fun r => r.date) =
      (List.range PISCINE_DAYS).map (fun (i : ℕ) => (i : ℤ))) ∧
    ((calculate_metrics stats a login now).daily.length = PISCINE_DAYS) ∧
    ((calculate_metrics stats a login now).total_logged_hours =
      round2 (rawStatsTotal stats + active_extra a now)) ∧
    ((∀ p ∈ stats, 0 ≤ parse_duration p.2) →
      rawStatsTotal stats = sumAllDurations stats) ∧
    (∀ (d : ℤ) (dur : Dur), (d < 0 ∨ (PISCINE_DAYS : ℤ) ≤ d) → 0 < parse_duration dur →
      dailyData ((d, dur) :: stats) = dailyData stats ∧
      rawStatsTotal ((d, dur) :: stats) = parse_duration dur + rawStatsTotal stats) := by
  refine ⟨?_, ?_, rfl, ?_, ?_⟩
  · show (dailyData stats).map (fun r => r.date) = _
    rw [dailyData, List.map_map]
    rfl
  · show (dailyData stats).length = _
    rw [dailyData, List.length_map, List.length_range]
  · intro hnn
    induction stats with
    | nil => rfl
    | cons p t ih =>
      have hp := hnn p (List.mem_cons_self p t)
      have ht : ∀ q ∈ t, 0 ≤ parse_duration q.2 :=
        fun q hq => hnn q (List.mem_cons_of_mem p hq)
      have hs : sumAllDurations (p :: t) = parse_duration p.2 + sumAllDurations t := by
        rw [sumAllDurations, sumAllDurations, List.map_cons, List.sum_cons]
      rw [rawStatsTotal_cons, ih ht, hs]
      by_cases hpos : 0 < parse_duration p.2
      · rw [if_pos hpos]
      · have hz : parse_duration p.2 = 0 := le_antisymm (not_lt.mp hpos) hp
        rw [if_neg hpos, hz]
  · intro d dur hout hpos
    constructor
    · rw [dailyData, dailyData]
      apply List.map_congr_left
      intro i hi
      have hi26 : i < PISCINE_DAYS := List.mem_range.mp hi
      have hnn : (0 : ℤ) ≤ (i : ℤ) := Int.natCast_nonneg i
      have h26 : (i : ℤ) < 26 := by
        have : i < 26 := by simpa [PISCINE_DAYS] using hi26
        exact_mod_cast this
      have hne : (i : ℤ) ≠ d := by
        rcases hout with h | h
        · omega
        · have hd : (26 : ℤ) ≤ d := by simpa [PISCINE_DAYS] using h
          omega
      have hdh : daily_hours ((d, dur) :: stats) =
          (d, parse_duration dur) :: daily_hours stats :=
        daily_hours_cons_pos stats hpos
      simp only [hdh, lookup_cons_ne _ _ hne]
    · rw [rawStatsTotal_cons, if_pos hpos]

/-- C10, witness: the nonnegative-durations hypothesis and the
out-of-window-entry consequence at concrete inputs (entry on day 30,
2 hours, prepended to a one-entry stats map). -/
theorem c10_daily_window_and_total_witness :
    rawStatsTotal [((0:ℤ), (some (1, 0, 0) : Dur))] =
      sumAllDurations [((0:ℤ), (some (1, 0, 0) : Dur))] ∧
    dailyData [((30:ℤ), (some (2, 0, 0) : Dur)), ((0:ℤ), (some (1, 0, 0) : Dur))] =
      dailyData [((0:ℤ), (some (1, 0, 0) : Dur))] ∧
    rawStatsTotal [((30:ℤ), (some (2, 0, 0) : Dur)), ((0:ℤ), (some (1, 0, 0) : Dur))] =
      parse_duration (some (2, 0, 0) : Dur) +
        rawStatsTotal [((0:ℤ), (some (1, 0, 0) : Dur))] := by
  have h := c10_daily_window_and_total [((0:ℤ), (some (1, 0, 0) : Dur))] none "x" 0
  have hnn : ∀ p ∈ [((0:ℤ), (some (1, 0, 0) : Dur))], 0 ≤ parse_duration p.2 := by
    intro p hp
    simp only [List.mem_singleton] at hp
    rw [hp]
    norm_num [parse_duration]
  have hout : ((30:ℤ) < 0 ∨ (PISCINE_DAYS : ℤ) ≤ 30) := by
    right
    norm_num [PISCINE_DAYS]
  have hpos : (0:ℚ) < parse_duration (some (2, 0, 0) : Dur) := by
    norm_num [parse_duration]
  have h5 := h.2.2.2.2 30 (some (2, 0, 0) : Dur) hout hpos
  exact ⟨h.2.2.2.1 hnn, h5.1, h5.2⟩

end PiscineTracker
